import Mathlib

/-!
Shallow embedding of the `ftracker` Go package (fitness tracker module).

Numeric model: Go `float64` arithmetic is embedded as exact rational
arithmetic over `ℚ`; Go `int` is embedded as `ℤ`.  Two auxiliary models
are developed further below where a statement is specifically about
IEEE 754 behaviour: `rnd64` (round-to-nearest-even at 53 bits of
precision, for a bit-level linearity statement about `distance`) and
`FloatVal` (finite / infinite / NaN values with IEEE special-value
propagation, for the unguarded division by a zero height in
`WalkingSpentCalories`).

`namespace ftracker` embeds `src/ftracker.go` (calorie functions recompute
the mean speed internally); `namespace ftrackerV2` embeds the second
shipped version of the module, `src/unnamed/part_000` (calorie functions
receive the precomputed speed as a parameter).  The two files share their
`fmt.Sprintf` format string, embedded once as `trainingReport` below.
-/

/-- Renders an integer number of hundredths the way `fmt.Sprintf` verb
`%.2f` renders the corresponding value: optional sign, integer part, a
point, and exactly two fractional digits. -/
def formatCenti (n : ℤ) : String :=
  let sign := if n < 0 then "-" else ""
  let m := n.natAbs
  let frac := m % 100
  sign ++ toString (m / 100) ++ "." ++
    (if frac < 10 then "0" else "") ++ toString frac

/-- Rendering of a `float64` by `fmt.Sprintf` verb `%.2f`: the value rounded
to two decimal places, printed with exactly two digits after the point.
(The rounding of an exactly-represented midpoint differs from Go, which
rounds the binary value half-to-even; no statement below exercises a
midpoint.) -/
def formatFloat2 (q : ℚ) : String :=
  formatCenti (round (q * 100))

/-- The `fmt.Sprintf` format used by every success branch of both versions
of `ShowTrainingInfo`, applied to its five arguments. -/
def trainingReport (trainingType : String)
    (duration dist speed calories : ℚ) : String :=
  "Тип тренировки: " ++ trainingType ++
  "\nДлительность: " ++ formatFloat2 duration ++
  " ч.\nДистанция: " ++ formatFloat2 dist ++
  " км.\nСкорость: " ++ formatFloat2 speed ++
  " км/ч\nСожгли калорий: " ++ formatFloat2 calories ++ "\n"

namespace ftracker

/-- Mean step length (Go constant `lenStep = 0.65`). -/
def lenStep : ℚ := 0.65

/-- Metres in a kilometre (Go constant `mInKm = 1000`). -/
def mInKm : ℚ := 1000

/-- Minutes in an hour (Go constant `minInH = 60`). -/
def minInH : ℚ := 60

/-- Coefficient converting km/h to m/s (Go constant `kmhInMsec = 0.278`). -/
def kmhInMsec : ℚ := 0.278

/-- Centimetres in a metre (Go constant `cmInM = 100`). -/
def cmInM : ℚ := 100

/-- Embedding of `distance(action int) float64`:
`float64(action) * lenStep / mInKm`. -/
def distance (action : ℤ) : ℚ :=
  (action : ℚ) * lenStep / mInKm

/-- Embedding of `meanSpeed(action int, duration float64) float64`:
returns 0 when `duration == 0`, otherwise `distance(action) / duration`. -/
def meanSpeed (action : ℤ) (duration : ℚ) : ℚ :=
  if duration = 0 then 0
  else distance action / duration

/-- Go constant `runningCaloriesMeanSpeedMultiplier = 18`. -/
def runningCaloriesMeanSpeedMultiplier : ℚ := 18

/-- Go constant `runningCaloriesMeanSpeedShift = 1.79`. -/
def runningCaloriesMeanSpeedShift : ℚ := 1.79

/-- Embedding of `RunningSpentCalories(action int, weight, duration float64)`:
`(runningCaloriesMeanSpeedMultiplier * meanSpeed(action, duration) *
runningCaloriesMeanSpeedShift) * weight / mInKm * duration * minInH`. -/
def RunningSpentCalories (action : ℤ) (weight duration : ℚ) : ℚ :=
  (runningCaloriesMeanSpeedMultiplier * meanSpeed action duration *
    runningCaloriesMeanSpeedShift) * weight / mInKm * duration * minInH

/-- Go constant `walkingCaloriesWeightMultiplier = 0.035`. -/
def walkingCaloriesWeightMultiplier : ℚ := 0.035

/-- Go constant `walkingSpeedHeightMultiplier = 0.029`. -/
def walkingSpeedHeightMultiplier : ℚ := 0.029

/-- Embedding of `WalkingSpentCalories(action int, duration, weight, height
float64)`: `(walkingCaloriesWeightMultiplier*weight +
(math.Pow(meanSpeed(action, duration)*kmhInMsec, 2)/(height/cmInM))*
walkingSpeedHeightMultiplier*weight) * duration * minInH`
(`math.Pow(x, 2)` embedded as `x ^ 2`). -/
def WalkingSpentCalories (action : ℤ) (duration weight height : ℚ) : ℚ :=
  (walkingCaloriesWeightMultiplier * weight +
    ((meanSpeed action duration * kmhInMsec) ^ 2 / (height / cmInM)) *
      walkingSpeedHeightMultiplier * weight) * duration * minInH

/-- Go constant `swimmingCaloriesMeanSpeedShift = 1.1`. -/
def swimmingCaloriesMeanSpeedShift : ℚ := 1.1

/-- Go constant `swimmingCaloriesWeightMultiplier = 2`. -/
def swimmingCaloriesWeightMultiplier : ℚ := 2

/-- Embedding of `swimmingMeanSpeed(lengthPool, countPool int, duration
float64)`: returns 0 when `duration == 0`, otherwise
`float64(lengthPool) * float64(countPool) / mInKm / duration`. -/
def swimmingMeanSpeed (lengthPool countPool : ℤ) (duration : ℚ) : ℚ :=
  if duration = 0 then 0
  else (lengthPool : ℚ) * (countPool : ℚ) / mInKm / duration

/-- Embedding of `SwimmingSpentCalories(lengthPool, countPool int, duration,
weight float64)`: `(swimmingMeanSpeed(lengthPool, countPool, duration) +
swimmingCaloriesMeanSpeedShift) * swimmingCaloriesWeightMultiplier *
weight * duration`. -/
def SwimmingSpentCalories (lengthPool countPool : ℤ) (duration weight : ℚ) : ℚ :=
  (swimmingMeanSpeed lengthPool countPool duration +
    swimmingCaloriesMeanSpeedShift) * swimmingCaloriesWeightMultiplier *
    weight * duration

/-- Embedding of `ShowTrainingInfo(action int, trainingType string, duration,
weight, height float64, lengthPool, countPool int) string` of
`src/ftracker.go`: a `switch` on `trainingType` over the three labels
"Бег" (running), "Ходьба" (walking), "Плавание" (swimming), with the fixed
fallback string "неизвестный тип тренировки" ("unknown training type") on
any other label. -/
def ShowTrainingInfo (action : ℤ) (trainingType : String)
    (duration weight height : ℚ) (lengthPool countPool : ℤ) : String :=
  if trainingType = "Бег" then
    trainingReport trainingType duration (distance action)
      (meanSpeed action duration)
      (RunningSpentCalories action weight duration)
  else if trainingType = "Ходьба" then
    trainingReport trainingType duration (distance action)
      (meanSpeed action duration)
      (WalkingSpentCalories action duration weight height)
  else if trainingType = "Плавание" then
    trainingReport trainingType duration (distance action)
      (swimmingMeanSpeed lengthPool countPool duration)
      (SwimmingSpentCalories lengthPool countPool duration weight)
  else "неизвестный тип тренировки"

end ftracker

namespace ftrackerV2

/-- Mean step length (Go constant `lenStep = 0.65` of `src/unnamed/part_000`). -/
def lenStep : ℚ := 0.65

/-- Metres in a kilometre (Go constant `mInKm = 1000`). -/
def mInKm : ℚ := 1000

/-- Minutes in an hour (Go constant `minInH = 60`). -/
def minInH : ℚ := 60

/-- Coefficient converting km/h to m/s (Go constant `kmhInMsec = 0.278`). -/
def kmhInMsec : ℚ := 0.278

/-- Embedding of `distance(action int) float64` of `src/unnamed/part_000`. -/
def distance (action : ℤ) : ℚ :=
  (action : ℚ) * lenStep / mInKm

/-- Embedding of `meanSpeed(action int, duration float64) float64` of
`src/unnamed/part_000`. -/
def meanSpeed (action : ℤ) (duration : ℚ) : ℚ :=
  if duration = 0 then 0
  else distance action / duration

/-- Go constant `runningCaloriesMeanSpeedMultiplier = 18`. -/
def runningCaloriesMeanSpeedMultiplier : ℚ := 18

/-- Go constant `runningCaloriesMeanSpeedShift = 1.79`. -/
def runningCaloriesMeanSpeedShift : ℚ := 1.79

/-- Embedding of `RunningSpentCalories(weight, duration, speed float64)` of
`src/unnamed/part_000`: the mean speed arrives as the parameter `speed`. -/
def RunningSpentCalories (weight duration speed : ℚ) : ℚ :=
  (runningCaloriesMeanSpeedMultiplier * speed *
    runningCaloriesMeanSpeedShift) * weight / mInKm * duration * minInH

/-- Go constant `walkingCaloriesWeightMultiplier = 0.035`. -/
def walkingCaloriesWeightMultiplier : ℚ := 0.035

/-- Embedding of `WalkingSpentCalories(duration, weight, height, speed
float64)` of `src/unnamed/part_000`; this version spells the height divisor
and the growth multiplier as the literals `100` and `0.029`. -/
def WalkingSpentCalories (duration weight height speed : ℚ) : ℚ :=
  (walkingCaloriesWeightMultiplier * weight +
    ((speed * kmhInMsec) ^ 2 / (height / 100)) * 0.029 * weight) *
    duration * minInH

/-- Go constant `swimmingCaloriesMeanSpeedShift = 1.1`. -/
def swimmingCaloriesMeanSpeedShift : ℚ := 1.1

/-- Go constant `swimmingCaloriesWeightMultiplier = 2`. -/
def swimmingCaloriesWeightMultiplier : ℚ := 2

/-- Embedding of `swimmingMeanSpeed(lengthPool, countPool int, duration
float64)` of `src/unnamed/part_000`. -/
def swimmingMeanSpeed (lengthPool countPool : ℤ) (duration : ℚ) : ℚ :=
  if duration = 0 then 0
  else (lengthPool : ℚ) * (countPool : ℚ) / mInKm / duration

/-- Embedding of `SwimmingSpentCalories(duration, weight, speed float64)` of
`src/unnamed/part_000`: the mean speed arrives as the parameter `speed`. -/
def SwimmingSpentCalories (duration weight speed : ℚ) : ℚ :=
  (speed + swimmingCaloriesMeanSpeedShift) *
    swimmingCaloriesWeightMultiplier * weight * duration

/-- Embedding of `ShowTrainingInfo` of `src/unnamed/part_000`: each branch
precomputes `speed` and passes it to the calorie function. -/
def ShowTrainingInfo (action : ℤ) (trainingType : String)
    (duration weight height : ℚ) (lengthPool countPool : ℤ) : String :=
  if trainingType = "Бег" then
    trainingReport trainingType duration (distance action)
      (meanSpeed action duration)
      (RunningSpentCalories weight duration (meanSpeed action duration))
  else if trainingType = "Ходьба" then
    trainingReport trainingType duration (distance action)
      (meanSpeed action duration)
      (WalkingSpentCalories duration weight height (meanSpeed action duration))
  else if trainingType = "Плавание" then
    trainingReport trainingType duration (distance action)
      (swimmingMeanSpeed lengthPool countPool duration)
      (SwimmingSpentCalories duration weight
        (swimmingMeanSpeed lengthPool countPool duration))
  else "неизвестный тип тренировки"

end ftrackerV2

/-- Values of a Go `float64` in the exact-significand model: a finite value
carried exactly as a rational, a signed infinity (`inf true` is positive
infinity), or NaN.  The operations below propagate the IEEE 754 special
values and keep finite arithmetic exact (no rounding); zeroes are
unsigned, which matches the non-negative literals the program divides by. -/
inductive FloatVal where
  | fin (q : ℚ)
  | inf (pos : Bool)
  | nan
deriving DecidableEq

namespace FloatVal

/-- IEEE 754 multiplication on the value model: NaN absorbs, infinity times
zero is NaN, infinity times a nonzero finite value keeps the product sign. -/
def mul : FloatVal → FloatVal → FloatVal
  | nan, _ => nan
  | _, nan => nan
  | fin a, fin b => fin (a * b)
  | fin a, inf s => if a = 0 then nan else if 0 < a then inf s else inf !s
  | inf s, fin b => if b = 0 then nan else if 0 < b then inf s else inf !s
  | inf s, inf t => inf (s == t)

/-- IEEE 754 addition on the value model: NaN absorbs, opposite infinities
give NaN. -/
def add : FloatVal → FloatVal → FloatVal
  | nan, _ => nan
  | _, nan => nan
  | fin a, fin b => fin (a + b)
  | fin _, inf s => inf s
  | inf s, fin _ => inf s
  | inf s, inf t => if s = t then inf s else nan

/-- IEEE 754 division on the value model: NaN absorbs, zero over zero is
NaN, a nonzero finite value over zero is a signed infinity, a finite value
over infinity is zero. -/
def div : FloatVal → FloatVal → FloatVal
  | nan, _ => nan
  | _, nan => nan
  | fin a, fin b =>
      if b = 0 then
        if a = 0 then nan else if 0 < a then inf true else inf false
      else fin (a / b)
  | fin _, inf _ => fin 0
  | inf s, fin b => if 0 ≤ b then inf s else inf !s
  | inf _, inf _ => nan

/-- The IEEE `==` comparison against the literal `0` used by the
duration guards (`NaN == 0` and `Inf == 0` are false). -/
def isZero : FloatVal → Bool
  | fin q => q = 0
  | _ => false

/-- True exactly on finite values: false on both infinities and NaN. -/
def isFinite : FloatVal → Bool
  | fin _ => true
  | _ => false

end FloatVal

/-- Embedding of `distance` over the `FloatVal` model of `float64`. -/
def distanceF (action : ℤ) : FloatVal :=
  FloatVal.div
    (FloatVal.mul (FloatVal.fin (action : ℚ)) (FloatVal.fin ftracker.lenStep))
    (FloatVal.fin ftracker.mInKm)

/-- Embedding of `meanSpeed` over the `FloatVal` model of `float64`. -/
def meanSpeedF (action : ℤ) (duration : FloatVal) : FloatVal :=
  if duration.isZero then FloatVal.fin 0
  else FloatVal.div (distanceF action) duration

/-- Embedding of `math.Pow(x, 2)` over the `FloatVal` model: squaring, which
agrees with `math.Pow` on finite values, infinities and NaN. -/
def powTwoF (x : FloatVal) : FloatVal := FloatVal.mul x x

/-- Embedding of `WalkingSpentCalories` over the `FloatVal` model of
`float64`, with the same operand association as the Go expression. -/
def WalkingSpentCaloriesF (action : ℤ) (duration weight height : FloatVal) :
    FloatVal :=
  FloatVal.mul
    (FloatVal.mul
      (FloatVal.add
        (FloatVal.mul (FloatVal.fin ftracker.walkingCaloriesWeightMultiplier)
          weight)
        (FloatVal.mul
          (FloatVal.mul
            (FloatVal.div
              (powTwoF (FloatVal.mul (meanSpeedF action duration)
                (FloatVal.fin ftracker.kmhInMsec)))
              (FloatVal.div height (FloatVal.fin ftracker.cmInM)))
            (FloatVal.fin ftracker.walkingSpeedHeightMultiplier))
          weight))
      duration)
    (FloatVal.fin ftracker.minInH)

/-- Round a positive or negative rational to the nearest IEEE 754 binary64
value, ties to even: the nearest multiple of `2 ^ (e - 52)` where
`2 ^ e ≤ |q| < 2 ^ (e + 1)`.  Subnormal underflow and overflow to infinity
do not occur in the computations below and are not modelled. -/
def rnd64 (q : ℚ) : ℚ :=
  if q = 0 then 0
  else
    let x := |q|
    let e : ℤ := Int.log 2 x
    let ulp : ℚ := 2 ^ (e - 52)
    let m : ℚ := x / ulp
    let lo : ℤ := ⌊m⌋
    let fr : ℚ := m - lo
    let n : ℤ :=
      if fr < 1/2 then lo
      else if 1/2 < fr then lo + 1
      else if lo % 2 = 0 then lo else lo + 1
    (if q < 0 then -1 else 1) * (n : ℚ) * ulp

/-- Embedding of `distance` under IEEE 754 binary64 arithmetic: the Go
constants `0.65` and `1000` denote their nearest binary64 values, the
operand is converted by `float64(action)`, and each multiplication and
division rounds its exact result to the nearest binary64 value. -/
def distanceFP (action : ℤ) : ℚ :=
  rnd64 (rnd64 (rnd64 (action : ℚ) * rnd64 0.65) / rnd64 1000)

lemma formatFloat2_eq_formatCenti (q : ℚ) (n : ℤ) (h : round (q * 100) = n) :
    formatFloat2 q = formatCenti n := by
  unfold formatFloat2
  rw [h]

lemma int_log2_eq_of (q : ℚ) (e : ℤ) (h1 : (2:ℚ) ^ e ≤ q)
    (h2 : q < 2 ^ (e + 1)) : Int.log 2 q = e := by
  have hcast : ((2:ℕ):ℚ) = (2:ℚ) := by norm_num
  have hq : 0 < q := lt_of_lt_of_le (by positivity) h1
  have hz : Int.log 2 ((2:ℚ) ^ e) = e := by
    rw [← hcast]
    exact Int.log_zpow (by norm_num) e
  have hl : e ≤ Int.log 2 q := by
    have hmono := Int.log_mono_right (b := 2)
      (by positivity : (0:ℚ) < (2:ℚ) ^ e) h1
    omega
  have hu : Int.log 2 q ≤ e := by
    have hx : (2:ℚ) ^ Int.log 2 q ≤ q := by
      have := Int.zpow_log_le_self (b := 2) (by norm_num) hq
      rwa [hcast] at this
    have hlt : (2:ℚ) ^ Int.log 2 q < 2 ^ (e + 1) := lt_of_le_of_lt hx h2
    have := (zpow_right_strictMono₀ (by norm_num : (1:ℚ) < 2)).lt_iff_lt.mp hlt
    omega
  omega

lemma rnd64_pos_eval (q : ℚ) (e lo : ℤ)
    (h1 : (2:ℚ) ^ e ≤ q) (h2 : q < 2 ^ (e + 1))
    (hlo : (lo : ℚ) ≤ q / 2 ^ (e - 52)) (hlo1 : q / 2 ^ (e - 52) < lo + 1) :
    rnd64 q =
      ((if q / 2 ^ (e - 52) - lo < 1/2 then lo
        else if 1/2 < q / 2 ^ (e - 52) - lo then lo + 1
        else if lo % 2 = 0 then lo else lo + 1 : ℤ) : ℚ) * 2 ^ (e - 52) := by
  have hq : 0 < q := lt_of_lt_of_le (by positivity) h1
  have habs : |q| = q := abs_of_pos hq
  have he : Int.log 2 q = e := int_log2_eq_of q e h1 h2
  have hfl : ⌊q / 2 ^ (e - 52)⌋ = lo := by
    rw [Int.floor_eq_iff]
    exact ⟨hlo, hlo1⟩
  simp only [rnd64, if_neg hq.ne', if_neg (not_lt.mpr hq.le), habs]
  rw [he, hfl, one_mul]

lemma rnd64_val_3 : rnd64 (3 : ℚ) = 3 := by
  rw [rnd64_pos_eval 3 1 6755399441055744 (by norm_num) (by norm_num)
    (by norm_num) (by norm_num)]
  norm_num

lemma rnd64_val_1000 : rnd64 (1000 : ℚ) = 1000 := by
  rw [rnd64_pos_eval 1000 9 8796093022208000 (by norm_num) (by norm_num)
    (by norm_num) (by norm_num)]
  norm_num

lemma rnd64_val_065 : rnd64 (0.65 : ℚ) = 5854679515581645 / 9007199254740992 := by
  rw [rnd64_pos_eval 0.65 (-1) 5854679515581644 (by norm_num) (by norm_num)
    (by norm_num) (by norm_num)]
  norm_num

lemma rnd64_val_p1 :
    rnd64 (17564038546744935 / 9007199254740992 : ℚ) =
      2195504818343117 / 1125899906842624 := by
  rw [rnd64_pos_eval _ 0 8782019273372467 (by norm_num) (by norm_num)
    (by norm_num) (by norm_num)]
  norm_num

lemma rnd64_val_q2 :
    rnd64 (2195504818343117 / 1125899906842624000 : ℚ) =
      8992787735933407 / 4611686018427387904 := by
  rw [rnd64_pos_eval _ (-10) 8992787735933407 (by norm_num) (by norm_num)
    (by norm_num) (by norm_num)]
  norm_num

lemma rnd64_val_00065 :
    rnd64 (0.00065 : ℚ) = 1498797955988901 / 2305843009213693952 := by
  rw [rnd64_pos_eval _ (-11) 5995191823955604 (by norm_num) (by norm_num)
    (by norm_num) (by norm_num)]
  norm_num

lemma rnd64_val_q3 :
    rnd64 (4496393867966703 / 2305843009213693952 : ℚ) =
      4496393867966703 / 2305843009213693952 := by
  rw [rnd64_pos_eval _ (-10) 8992787735933406 (by norm_num) (by norm_num)
    (by norm_num) (by norm_num)]
  norm_num

lemma distanceFP_three :
    distanceFP 3 = 8992787735933407 / 4611686018427387904 := by
  unfold distanceFP
  rw [show ((3 : ℤ) : ℚ) = (3 : ℚ) from by norm_num, rnd64_val_3, rnd64_val_065,
    rnd64_val_1000,
    show (3 : ℚ) * (5854679515581645 / 9007199254740992) =
      17564038546744935 / 9007199254740992 from by norm_num,
    rnd64_val_p1,
    show (2195504818343117 / 1125899906842624 : ℚ) / 1000 =
      2195504818343117 / 1125899906842624000 from by norm_num,
    rnd64_val_q2]

lemma fpProduct_three :
    rnd64 (rnd64 (3 : ℚ) * rnd64 (0.00065 : ℚ)) =
      4496393867966703 / 2305843009213693952 := by
  rw [rnd64_val_3, rnd64_val_00065,
    show (3 : ℚ) * (1498797955988901 / 2305843009213693952) =
      4496393867966703 / 2305843009213693952 from by norm_num,
    rnd64_val_q3]

lemma distanceF_fin (action : ℤ) :
    distanceF action = FloatVal.fin (ftracker.distance action) := by
  have h : ftracker.mInKm ≠ 0 := by norm_num [ftracker.mInKm]
  simp [distanceF, FloatVal.mul, FloatVal.div, h, ftracker.distance]

lemma meanSpeedF_fin (action : ℤ) (d : ℚ) :
    meanSpeedF action (FloatVal.fin d) =
      FloatVal.fin (ftracker.meanSpeed action d) := by
  by_cases hd : d = 0
  · simp [meanSpeedF, FloatVal.isZero, ftracker.meanSpeed, hd]
  · simp [meanSpeedF, FloatVal.isZero, ftracker.meanSpeed, hd, distanceF_fin,
      FloatVal.div]

lemma floatVal_mul_fin_fin (a b : ℚ) :
    FloatVal.mul (FloatVal.fin a) (FloatVal.fin b) = FloatVal.fin (a * b) := rfl

lemma floatVal_isFinite_mul_fin (x : FloatVal) (c : ℚ)
    (hx : x.isFinite = false) :
    (FloatVal.mul x (FloatVal.fin c)).isFinite = false := by
  cases x with
  | fin q => simp [FloatVal.isFinite] at hx
  | inf s => simp only [FloatVal.mul]; split_ifs <;> rfl
  | nan => rfl

lemma floatVal_isFinite_add_fin (c : ℚ) (x : FloatVal)
    (hx : x.isFinite = false) :
    (FloatVal.add (FloatVal.fin c) x).isFinite = false := by
  cases x with
  | fin q => simp [FloatVal.isFinite] at hx
  | inf s => rfl
  | nan => rfl

lemma floatVal_isFinite_div_fin_zero (p : ℚ) :
    (FloatVal.div (FloatVal.fin p) (FloatVal.fin 0)).isFinite = false := by
  simp only [FloatVal.div, if_pos rfl]
  split_ifs <;> rfl

/-- C1: the claim reads the activity labels as the English strings
"running", "walking", "swimming"; the dispatcher of `src/ftracker.go`
recognises only the localized labels, so the label "running" falls through
to the fixed fallback string and does not produce the running report. -/
theorem claim_C1_counterexample :
    ftracker.ShowTrainingInfo 1000 "running" 1 70 170 25 20 =
      "неизвестный тип тренировки" ∧
    ftracker.ShowTrainingInfo 1000 "running" 1 70 170 25 20 ≠
      trainingReport "running" 1 (ftracker.distance 1000)
        (ftracker.meanSpeed 1000 1)
        (ftracker.RunningSpentCalories 1000 70 1) := by
  have hfall : ftracker.ShowTrainingInfo 1000 "running" 1 70 170 25 20 =
      "неизвестный тип тренировки" := by
    simp [ftracker.ShowTrainingInfo]
  refine ⟨hfall, ?_⟩
  rw [hfall]
  unfold trainingReport
  rw [formatFloat2_eq_formatCenti 1 100 (by norm_num [round_eq]),
    formatFloat2_eq_formatCenti (ftracker.distance 1000) 65
      (by norm_num [ftracker.distance, ftracker.lenStep, ftracker.mInKm,
        round_eq]),
    formatFloat2_eq_formatCenti (ftracker.meanSpeed 1000 1) 65
      (by norm_num [ftracker.meanSpeed, ftracker.distance, ftracker.lenStep,
        ftracker.mInKm, round_eq]),
    formatFloat2_eq_formatCenti (ftracker.RunningSpentCalories 1000 70 1) 8796
      (by norm_num [ftracker.RunningSpentCalories, ftracker.meanSpeed,
        ftracker.distance, ftracker.lenStep, ftracker.mInKm, ftracker.minInH,
        ftracker.runningCaloriesMeanSpeedMultiplier,
        ftracker.runningCaloriesMeanSpeedShift, round_eq])]
  decide

/-- C1 (amended): `ShowTrainingInfo` branches on the activity label drawn
from the fixed enumerated set of localized labels "Бег", "Ходьба",
"Плавание": for "Бег" it returns the running report (distance via the step
formula, speed via `meanSpeed`, calories via `RunningSpentCalories`), and
likewise "Ходьба" and "Плавание" select their respective formula sets. -/
theorem claim_C1_thm (action lengthPool countPool : ℤ)
    (duration weight height : ℚ) :
    (ftracker.ShowTrainingInfo action "Бег" duration weight height
        lengthPool countPool =
      trainingReport "Бег" duration (ftracker.distance action)
        (ftracker.meanSpeed action duration)
        (ftracker.RunningSpentCalories action weight duration)) ∧
    (ftracker.ShowTrainingInfo action "Ходьба" duration weight height
        lengthPool countPool =
      trainingReport "Ходьба" duration (ftracker.distance action)
        (ftracker.meanSpeed action duration)
        (ftracker.WalkingSpentCalories action duration weight height)) ∧
    (ftracker.ShowTrainingInfo action "Плавание" duration weight height
        lengthPool countPool =
      trainingReport "Плавание" duration (ftracker.distance action)
        (ftracker.swimmingMeanSpeed lengthPool countPool duration)
        (ftracker.SwimmingSpentCalories lengthPool countPool duration
          weight)) := by
  refine ⟨?_, ?_, ?_⟩ <;> simp [ftracker.ShowTrainingInfo]

/-- C2: in the swimming branch of `ShowTrainingInfo` the reported distance
is the step-based `distance(action)` = `action * 0.65 / 1000`, not the
pool-based `lengthPool * countPool / 1000` (the two disagree, e.g. at
`action = 1000`, `lengthPool = 25`, `countPool = 20`), while the reported
speed and calories in that branch are pool-based. -/
theorem claim_C2 (action lengthPool countPool : ℤ)
    (duration weight height : ℚ) :
    ftracker.ShowTrainingInfo action "Плавание" duration weight height
        lengthPool countPool =
      trainingReport "Плавание" duration (ftracker.distance action)
        (ftracker.swimmingMeanSpeed lengthPool countPool duration)
        (ftracker.SwimmingSpentCalories lengthPool countPool duration weight) ∧
    ftracker.distance action = (action : ℚ) * 0.65 / 1000 ∧
    ftracker.distance 1000 ≠ (25 : ℚ) * 20 / 1000 := by
  refine ⟨by simp [ftracker.ShowTrainingInfo], rfl,
    by norm_num [ftracker.distance, ftracker.lenStep, ftracker.mInKm]⟩

/-- C3: both mean-speed functions return 0 when the duration is 0, for
every action count and every pool length and lap count, as a normal
sentinel value instead of dividing by zero. -/
theorem claim_C3 (action lengthPool countPool : ℤ) :
    ftracker.meanSpeed action 0 = 0 ∧
    ftracker.swimmingMeanSpeed lengthPool countPool 0 = 0 := by
  constructor <;> simp [ftracker.meanSpeed, ftracker.swimmingMeanSpeed]

/-- C4: `ShowTrainingInfo` with any activity label other than the three
recognized ones returns the same fixed fallback string, for every
combination of the numeric parameters, as a normal return value. -/
theorem claim_C4 (action lengthPool countPool : ℤ)
    (duration weight height : ℚ) (trainingType : String)
    (h1 : trainingType ≠ "Бег") (h2 : trainingType ≠ "Ходьба")
    (h3 : trainingType ≠ "Плавание") :
    ftracker.ShowTrainingInfo action trainingType duration weight height
      lengthPool countPool = "неизвестный тип тренировки" := by
  simp [ftracker.ShowTrainingInfo, h1, h2, h3]

/-- Witness for C4 at the unrecognized label "unknown-type". -/
theorem claim_C4_witness :
    ("unknown-type" ≠ "Бег" ∧ "unknown-type" ≠ "Ходьба" ∧
      "unknown-type" ≠ "Плавание") ∧
    ftracker.ShowTrainingInfo 1000 "unknown-type" 1 70 170 25 20 =
      "неизвестный тип тренировки" :=
  ⟨⟨by decide, by decide, by decide⟩,
    claim_C4 1000 25 20 1 70 170 "unknown-type"
      (by decide) (by decide) (by decide)⟩

/-- C5: the claim gives the running-calories formula correctly but
estimates `runningCalories(1000, 70, 1)` as approximately 88.07; the value
is exactly 87.9606 in exact arithmetic, which is not within 0.1 of
88.07. -/
theorem claim_C5_counterexample :
    ftracker.RunningSpentCalories 1000 70 1 = 87.9606 ∧
    ¬ |ftracker.RunningSpentCalories 1000 70 1 - 88.07| < 1/10 := by
  have h : ftracker.RunningSpentCalories 1000 70 1 = 87.9606 := by
    norm_num [ftracker.RunningSpentCalories, ftracker.meanSpeed,
      ftracker.distance, ftracker.lenStep, ftracker.mInKm, ftracker.minInH,
      ftracker.runningCaloriesMeanSpeedMultiplier,
      ftracker.runningCaloriesMeanSpeedShift]
  refine ⟨h, ?_⟩
  rw [h, show (87.9606 : ℚ) - 88.07 = -(547/5000) from by norm_num, abs_neg,
    abs_of_nonneg (by norm_num : (0:ℚ) ≤ 547/5000)]
  norm_num

/-- C5 (amended): for every action count, weight and duration,
`RunningSpentCalories` equals
`(18 * meanSpeed(action, duration) * 1.79) * weight / 1000 * duration * 60`;
in particular at `action = 1000`, `weight = 70`, `duration = 1` it equals
the literal evaluation of `(18 * 0.65 * 1.79) * 70 / 1000 * 1 * 60`, which
is exactly 87.9606 (approximately 87.96, not 88.07). -/
theorem claim_C5_thm (action : ℤ) (weight duration : ℚ) :
    ftracker.RunningSpentCalories action weight duration =
      (18 * ftracker.meanSpeed action duration * 1.79) * weight / 1000 *
        duration * 60 ∧
    ftracker.RunningSpentCalories 1000 70 1 =
      (18 * 0.65 * 1.79) * 70 / 1000 * 1 * 60 ∧
    ftracker.RunningSpentCalories 1000 70 1 = 87.9606 := by
  refine ⟨rfl, ?_, ?_⟩ <;>
    norm_num [ftracker.RunningSpentCalories, ftracker.meanSpeed,
      ftracker.distance, ftracker.lenStep, ftracker.mInKm, ftracker.minInH,
      ftracker.runningCaloriesMeanSpeedMultiplier,
      ftracker.runningCaloriesMeanSpeedShift]

/-- C6: `WalkingSpentCalories` equals the literal formula
`(0.035 * weight + ((meanSpeed(action, duration) * 0.278) ^ 2 /
(height / 100)) * 0.029 * weight) * duration * 60` for every input with no
guard on the height, and with a zero height the unguarded division makes
the IEEE 754 result an infinity or NaN (never a finite value), for every
action count, duration and weight. -/
theorem claim_C6 :
    (∀ (action : ℤ) (duration weight height : ℚ),
      ftracker.WalkingSpentCalories action duration weight height =
        (0.035 * weight +
          ((ftracker.meanSpeed action duration * 0.278) ^ 2 / (height / 100)) *
            0.029 * weight) * duration * 60) ∧
    (∀ (action : ℤ) (duration weight : ℚ),
      (WalkingSpentCaloriesF action (FloatVal.fin duration)
        (FloatVal.fin weight) (FloatVal.fin 0)).isFinite = false) := by
  refine ⟨fun action duration weight height => rfl,
    fun action duration weight => ?_⟩
  have hc : FloatVal.div (FloatVal.fin 0) (FloatVal.fin ftracker.cmInM) =
      FloatVal.fin 0 := by
    have h : ftracker.cmInM ≠ 0 := by norm_num [ftracker.cmInM]
    simp [FloatVal.div, h]
  unfold WalkingSpentCaloriesF
  rw [hc, meanSpeedF_fin, floatVal_mul_fin_fin, powTwoF, floatVal_mul_fin_fin]
  apply floatVal_isFinite_mul_fin
  apply floatVal_isFinite_mul_fin
  apply floatVal_isFinite_add_fin
  apply floatVal_isFinite_mul_fin
  apply floatVal_isFinite_mul_fin
  apply floatVal_isFinite_div_fin_zero

/-- C7: `SwimmingSpentCalories` equals
`(swimmingMeanSpeed(lengthPool, countPool, duration) + 1.1) * 2 * weight *
duration` for every input; for a nonzero duration `swimmingMeanSpeed` is
`lengthPool * countPool / 1000 / duration`; and
`SwimmingSpentCalories(25, 20, 1, 70) = 224` exactly. -/
theorem claim_C7_thm :
    (∀ (lengthPool countPool : ℤ) (duration weight : ℚ),
      ftracker.SwimmingSpentCalories lengthPool countPool duration weight =
        (ftracker.swimmingMeanSpeed lengthPool countPool duration + 1.1) * 2 *
          weight * duration) ∧
    (∀ (lengthPool countPool : ℤ) (duration : ℚ), duration ≠ 0 →
      ftracker.swimmingMeanSpeed lengthPool countPool duration =
        (lengthPool : ℚ) * (countPool : ℚ) / 1000 / duration) ∧
    ftracker.SwimmingSpentCalories 25 20 1 70 = 224 := by
  refine ⟨fun l c d w => rfl, fun l c d hd => ?_, ?_⟩
  · simp [ftracker.swimmingMeanSpeed, hd, ftracker.mInKm]
  · norm_num [ftracker.SwimmingSpentCalories, ftracker.swimmingMeanSpeed,
      ftracker.mInKm, ftracker.swimmingCaloriesMeanSpeedShift,
      ftracker.swimmingCaloriesWeightMultiplier]

/-- Witness for C7 at the nonzero duration 1 with the pool of the claim. -/
theorem claim_C7_witness :
    ftracker.swimmingMeanSpeed 25 20 1 = (25 : ℚ) * 20 / 1000 / 1 ∧
    ftracker.SwimmingSpentCalories 25 20 1 70 = 224 :=
  ⟨claim_C7_thm.2.1 25 20 1 (by norm_num), claim_C7_thm.2.2⟩

/-- C8: `distance(action)` equals `action * 0.65 / 1000` kilometres for
every action count, so `distance(0) = 0` and `distance(1000) = 0.65`; and
`meanSpeed(1000, 1) = 0.65`. -/
theorem claim_C8 (action : ℤ) :
    ftracker.distance action = (action : ℚ) * 0.65 / 1000 ∧
    ftracker.distance 0 = 0 ∧ ftracker.distance 1000 = 0.65 ∧
    ftracker.meanSpeed 1000 1 = 0.65 := by
  refine ⟨rfl, ?_, ?_, ?_⟩ <;>
    norm_num [ftracker.distance, ftracker.meanSpeed, ftracker.lenStep,
      ftracker.mInKm]

/-- C9: the claim asserts `distance(action) = action * 0.00065` under the
program's floating-point arithmetic; under binary64 rounding the two sides
already differ at `action = 3` (they differ in the last bit), so the claim
fails bit-for-bit even though the identity is exact in real arithmetic. -/
theorem claim_C9_counterexample :
    distanceFP 3 = 8992787735933407 / 4611686018427387904 ∧
    rnd64 (rnd64 (3 : ℚ) * rnd64 (0.00065 : ℚ)) =
      4496393867966703 / 2305843009213693952 ∧
    distanceFP 3 ≠ rnd64 (rnd64 (3 : ℚ) * rnd64 (0.00065 : ℚ)) ∧
    distanceFP 3 ≠ (3 : ℚ) * 0.00065 := by
  refine ⟨distanceFP_three, fpProduct_three, ?_, ?_⟩
  · rw [distanceFP_three, fpProduct_three]
    norm_num
  · rw [distanceFP_three]
    norm_num

/-- C9 (amended): `distance` is linear in the action count with slope
0.00065 in exact arithmetic: `distance(action) = action * 0.00065` for
every action count as exact rationals; under binary64 floating-point
arithmetic the computed distance differs from the floating-point product
`action * 0.00065` in the last bit for some counts, e.g. at
`action = 3`. -/
theorem claim_C9_thm :
    (∀ action : ℤ, ftracker.distance action = (action : ℚ) * 0.00065) ∧
    distanceFP 3 ≠ rnd64 (rnd64 (3 : ℚ) * rnd64 (0.00065 : ℚ)) := by
  constructor
  · intro action
    unfold ftracker.distance ftracker.lenStep ftracker.mInKm
    norm_num
    ring
  · rw [distanceFP_three, fpProduct_three]
    norm_num

/-- C10: the two shipped versions of the dispatcher are extensionally
equal: for every input, `ShowTrainingInfo` of `src/ftracker.go` (whose
calorie functions recompute the mean speed internally) and
`ShowTrainingInfo` of `src/unnamed/part_000` (whose calorie functions
receive the precomputed speed as a parameter) return identical strings. -/
theorem claim_C10 (action : ℤ) (trainingType : String)
    (duration weight height : ℚ) (lengthPool countPool : ℤ) :
    ftracker.ShowTrainingInfo action trainingType duration weight height
      lengthPool countPool =
    ftrackerV2.ShowTrainingInfo action trainingType duration weight height
      lengthPool countPool := by
  unfold ftracker.ShowTrainingInfo ftrackerV2.ShowTrainingInfo
  split_ifs <;> rfl
